import Mathlib

/-!
Shallow embedding of the cryptomax ledger: the profiles/transactions
schema of supabase/migrations/20250122233232_bitter_rain.sql and the
dashboard read/write flow of src/pages/Dashboard.tsx. SQL uuid columns
and timestamptz values are modelled as naturals, decimal amounts as
rationals.
-/

namespace CryptoMax

/-- The transaction type column values (migration line 41 and the
Dashboard.tsx Transaction interface). -/
inductive TxType
  | deposit
  | withdrawal
  | trade
deriving DecidableEq, Repr

/-- The currency column values (migration line 43). -/
inductive Currency
  | BTC
  | USD
deriving DecidableEq, Repr

/-- The status column values (migration line 44). -/
inductive TxStatus
  | pending
  | completed
  | failed
deriving DecidableEq, Repr

/-- A row of the transactions table (migration lines 38-46, mirrored by
the Transaction interface in Dashboard.tsx lines 12-19). -/
structure Transaction where
  id : Nat
  user_id : Nat
  type : TxType
  amount : ℚ
  currency : Currency
  status : TxStatus
  created_at : Nat
deriving DecidableEq, Repr

/-- A row of the profiles table (migration lines 28-35); only the columns
the dashboard reads are carried, plus username for provisioning. -/
structure Profile where
  id : Nat
  username : String
  btc_balance : ℚ
  usd_balance : ℚ
deriving DecidableEq, Repr

/-- The CHECK constraints of the profiles table (migration lines 31-32):
btc_balance >= 0 and usd_balance >= 0. -/
def profilesCheck (p : Profile) : Bool :=
  decide (0 ≤ p.btc_balance) && decide (0 ≤ p.usd_balance)

/-- A candidate row for the transactions table with the enum-like columns
as raw SQL text, used to state exactly which constraints the schema
imposes on inserted data. -/
structure TransactionRow where
  user_id : Nat
  type : String
  amount : ℚ
  currency : String
  status : String
deriving DecidableEq, Repr

/-- The column constraints of the transactions table (migration lines
38-46): type, currency and status are CHECKed against fixed value lists;
amount is NOT NULL (guaranteed here by the type) and carries no further
constraint in the schema. -/
def transactionsRowCheck (t : TransactionRow) : Bool :=
  (t.type == "deposit" || t.type == "withdrawal" || t.type == "trade") &&
  (t.currency == "BTC" || t.currency == "USD") &&
  (t.status == "pending" || t.status == "completed" || t.status == "failed")

/-- The INSERT row-level-security policy on transactions (migration lines
69-72): WITH CHECK (auth.uid() = user_id). -/
def insertPolicyAllows (uid : Nat) (t : TransactionRow) : Bool :=
  uid == t.user_id

/-- The dashboard only issues deposit or withdrawal commands: the type
parameter of handleTransaction (Dashboard.tsx line 66). -/
inductive TxKind
  | deposit
  | withdrawal
deriving DecidableEq, Repr

/-- The transaction type value the dashboard writes for each kind. -/
def TxKind.toType : TxKind → TxType
  | .deposit => .deposit
  | .withdrawal => .withdrawal

/-- The amount input field as handleTransaction reads it: the raw string
is empty, fails Number coercion, or denotes a numeric value. -/
inductive AmountInput
  | empty
  | nonNumeric
  | num (q : ℚ)
deriving DecidableEq, Repr

/-- The validity guard of Dashboard.tsx line 67: the submission is
rejected when the field is empty, is not a number, or is at most zero. -/
def amountInvalid : AmountInput → Bool
  | .empty => true
  | .nonNumeric => true
  | .num q => decide (q ≤ 0)

/-- The two rejection reasons surfaced by handleTransaction: the invalid
amount toast (line 68) and the insufficient balance toast (line 73). -/
inductive SubmitError
  | InvalidAmount
  | InsufficientFunds
deriving DecidableEq, Repr

/-- One account state as the dashboard flow sees it: the profile row and
the transactions of that account in insertion order, oldest first. -/
structure LedgerState where
  profile : Profile
  log : List Transaction
deriving DecidableEq, Repr

/-- Modelled from the spec: the balance-updating trigger that
Dashboard.tsx waits for after its insert (the delay comment at lines
89-90) is not among the migrations in src; per spec section 4.3 step 3
the signed delta is applied to the balance denominated in the
transaction currency. -/
def applyDelta (p : Profile) (c : Currency) (d : ℚ) : Profile :=
  match c with
  | .BTC => { p with btc_balance := p.btc_balance + d }
  | .USD => { p with usd_balance := p.usd_balance + d }

/-- The signed delta of spec section 4.3 step 3: plus the amount for a
deposit, minus the amount for a withdrawal. -/
def TxKind.signedDelta : TxKind → ℚ → ℚ
  | .deposit, a => a
  | .withdrawal, a => -a

/-- Dashboard.tsx handleTransaction (lines 66-102): reject an empty,
non-numeric or non-positive amount; reject a withdrawal larger than the
btc balance; otherwise insert a completed BTC transaction row and let
the (spec-modelled) trigger apply the balance delta. The
database-assigned id and created_at defaults are passed in as txid and
now. -/
def handleTransaction (ty : TxKind) (input : AmountInput) (txid now : Nat)
    (s : LedgerState) : Except SubmitError LedgerState :=
  match input with
  | .empty => .error .InvalidAmount
  | .nonNumeric => .error .InvalidAmount
  | .num a =>
    if a ≤ 0 then
      .error .InvalidAmount
    else if ty = TxKind.withdrawal ∧ s.profile.btc_balance < a then
      .error .InsufficientFunds
    else
      .ok
        { profile := applyDelta s.profile .BTC (ty.signedDelta a),
          log := s.log ++
            [{ id := txid, user_id := s.profile.id, type := ty.toType,
               amount := a, currency := .BTC, status := .completed,
               created_at := now }] }

/-- One dashboard submission: the kind and amount chosen by the user,
and the id and timestamp the database would assign on insert. -/
structure Command where
  kind : TxKind
  input : AmountInput
  txid : Nat
  now : Nat
deriving DecidableEq, Repr

/-- Applying one submission to the account state: a rejected submission
(an early return in handleTransaction) leaves the state untouched. -/
def step (s : LedgerState) (c : Command) : LedgerState :=
  match handleTransaction c.kind c.input c.txid c.now s with
  | .ok s2 => s2
  | .error _ => s

/-- A sequence of dashboard submissions applied in order. -/
def run (s : LedgerState) (cs : List Command) : LedgerState :=
  cs.foldl step s

/-- The ordering used by the recent-transactions query: created_at
descending, non-strict on equal keys as SQL ordering is. -/
def byRecency (a b : Transaction) : Prop :=
  b.created_at ≤ a.created_at

instance : DecidableRel byRecency :=
  fun a b => Nat.decLe b.created_at a.created_at

instance : IsTotal Transaction byRecency :=
  ⟨fun a b => le_total b.created_at a.created_at⟩

instance : IsTrans Transaction byRecency :=
  ⟨fun _ _ _ h1 h2 => le_trans h2 h1⟩

/-- Dashboard.tsx fetchTransactions (lines 49-64): the account rows
ordered by created_at descending and limited; modelled by a stable sort
on the non-strict descending comparison. -/
def listRecent (log : List Transaction) (limit : Nat) : List Transaction :=
  (log.insertionSort byRecency).take limit

/-- The dashboard recent-transactions query uses limit 10
(Dashboard.tsx line 56). -/
def fetchTransactions (s : LedgerState) : List Transaction :=
  listRecent s.log 10

/-- A row of auth.users as the provisioning trigger uses it. -/
structure AuthUser where
  id : Nat
  email : String
deriving DecidableEq, Repr

/-- handle_new_user (migration lines 75-82): INSERT INTO profiles
(id, username) VALUES (new.id, new.email); the balance columns take
their defaults of 0 (lines 31-32). -/
def handle_new_user (u : AuthUser) : Profile :=
  { id := u.id, username := u.email, btc_balance := 0, usd_balance := 0 }

/-- The on_auth_user_created trigger (migration lines 85-87) runs
handle_new_user once FOR EACH ROW inserted into auth.users: registering
one identity appends exactly one profile row. -/
def registerUser (profiles : List Profile) (u : AuthUser) : List Profile :=
  profiles ++ [handle_new_user u]

/-- Both balances of the account are non-negative. -/
def balancesNonneg (s : LedgerState) : Prop :=
  0 ≤ s.profile.btc_balance ∧ 0 ≤ s.profile.usd_balance

/-- The profile and the log deposits used by concrete instantiations. -/
def zeroState : LedgerState :=
  { profile := { id := 7, username := "u", btc_balance := 0, usd_balance := 0 },
    log := [] }

/-- A concrete account state holding 3 BTC with an empty log. -/
def smallState : LedgerState :=
  { profile := { id := 1, username := "w", btc_balance := 3, usd_balance := 0 },
    log := [] }

/- ## Helper lemmas -/

/-- The accepting branch of handleTransaction: a positive amount that is
covered by the btc balance when withdrawing inserts the completed row and
applies the signed delta. -/
theorem handleTransaction_num_pos_ok (ty : TxKind) (a : ℚ) (txid now : Nat)
    (s : LedgerState) (ha : 0 < a)
    (hf : ty = TxKind.withdrawal → a ≤ s.profile.btc_balance) :
    handleTransaction ty (.num a) txid now s = .ok
      { profile := applyDelta s.profile .BTC (ty.signedDelta a),
        log := s.log ++
          [{ id := txid, user_id := s.profile.id, type := ty.toType,
             amount := a, currency := .BTC, status := .completed,
             created_at := now }] } := by
  have h1 : ¬ a ≤ 0 := not_le.mpr ha
  have h2 : ¬ (ty = TxKind.withdrawal ∧ s.profile.btc_balance < a) := by
    rintro ⟨hw, hlt⟩
    exact absurd (hf hw) (not_le.mpr hlt)
  simp [handleTransaction, h1, h2]

/-- Inversion of the accepting branch: an accepted submission came from a
positive numeric amount, covered withdrawals, and produced exactly the
state with the delta applied and the completed BTC row appended. -/
theorem handleTransaction_ok_inv (ty : TxKind) (input : AmountInput)
    (txid now : Nat) (s s2 : LedgerState)
    (h : handleTransaction ty input txid now s = .ok s2) :
    ∃ a : ℚ, input = .num a ∧ 0 < a ∧
      (ty = TxKind.withdrawal → a ≤ s.profile.btc_balance) ∧
      s2 = { profile := applyDelta s.profile .BTC (ty.signedDelta a),
             log := s.log ++
               [{ id := txid, user_id := s.profile.id, type := ty.toType,
                  amount := a, currency := .BTC, status := .completed,
                  created_at := now }] } := by
  cases input with
  | empty => simp [handleTransaction] at h
  | nonNumeric => simp [handleTransaction] at h
  | num a =>
    by_cases h1 : a ≤ 0
    · simp [handleTransaction, h1] at h
    · by_cases h2 : ty = TxKind.withdrawal ∧ s.profile.btc_balance < a
      · simp [handleTransaction, h1, h2] at h
      · refine ⟨a, rfl, lt_of_not_le h1, ?_, ?_⟩
        · intro hw
          by_contra hc
          exact h2 ⟨hw, lt_of_not_le hc⟩
        · simp [handleTransaction, h1, h2] at h
          exact h.symm

/-- One accepted or rejected submission keeps both balances
non-negative. -/
theorem step_preserves_nonneg (s : LedgerState) (c : Command)
    (hs : balancesNonneg s) : balancesNonneg (step s c) := by
  unfold step
  cases hh : handleTransaction c.kind c.input c.txid c.now s with
  | error e => exact hs
  | ok s2 =>
    obtain ⟨a, _, ha, hw, hs2⟩ :=
      handleTransaction_ok_inv _ _ _ _ _ _ hh
    subst hs2
    obtain ⟨hb, hu⟩ := hs
    cases hk : c.kind with
    | deposit =>
      refine ⟨?_, hu⟩
      have : (0 : ℚ) ≤ s.profile.btc_balance + a := by linarith
      simpa [applyDelta, TxKind.signedDelta] using this
    | withdrawal =>
      rw [hk] at hw
      have hcov : a ≤ s.profile.btc_balance := hw rfl
      refine ⟨?_, hu⟩
      have : (0 : ℚ) ≤ s.profile.btc_balance + -a := by linarith
      simpa [applyDelta, TxKind.signedDelta] using this

/- ## Claims -/

/-- C1: for every account and every sequence of dashboard submissions
(accepted ones mutate the state, rejected ones leave it unchanged), both
btc_balance and usd_balance are non-negative after every operation: any
prefix of the sequence is itself an arbitrary sequence, so the statement
over all command lists covers every intermediate state. -/
theorem balances_nonneg_after_run (s : LedgerState) (cs : List Command)
    (hs : balancesNonneg s) : balancesNonneg (run s cs) := by
  induction cs generalizing s with
  | nil => exact hs
  | cons c cs ih => exact ih (step s c) (step_preserves_nonneg s c hs)

/-- C1 witness: a concrete run from the zero-balance account. -/
theorem balances_nonneg_after_run_witness :
    balancesNonneg (run zeroState
      [⟨.deposit, .num 2, 1, 1⟩, ⟨.withdrawal, .num 1, 2, 2⟩]) :=
  balances_nonneg_after_run zeroState
    [⟨.deposit, .num 2, 1, 1⟩, ⟨.withdrawal, .num 1, 2, 2⟩]
    ⟨by norm_num [zeroState], by norm_num [zeroState]⟩

/-- C2: a withdrawal whose amount exceeds the current (non-negative) btc
balance returns InsufficientFunds and leaves the whole ledger state,
balance and log alike, unchanged. -/
theorem withdrawal_insufficient_rejected (a : ℚ) (txid now : Nat)
    (s : LedgerState) (hb : 0 ≤ s.profile.btc_balance)
    (h : s.profile.btc_balance < a) :
    handleTransaction .withdrawal (.num a) txid now s =
      .error .InsufficientFunds ∧
    step s ⟨.withdrawal, .num a, txid, now⟩ = s := by
  have h1 : ¬ a ≤ 0 := not_le.mpr (lt_of_le_of_lt hb h)
  have heq : handleTransaction .withdrawal (.num a) txid now s =
      .error .InsufficientFunds := by
    simp [handleTransaction, h1, h]
  exact ⟨heq, by simp [step, heq]⟩

/-- C2 witness: withdrawing 5 BTC from an account holding 3 BTC. -/
theorem withdrawal_insufficient_rejected_witness :
    handleTransaction .withdrawal (.num 5) 2 9 smallState =
      .error .InsufficientFunds ∧
    step smallState ⟨.withdrawal, .num 5, 2, 9⟩ = smallState :=
  withdrawal_insufficient_rejected 5 2 9 smallState
    (by norm_num [smallState]) (by norm_num [smallState])

/-- C3: an empty, non-numeric, zero or negative amount is rejected with
InvalidAmount and the state is unchanged: no transaction row is created
and no balance moves, for deposits and withdrawals alike. -/
theorem invalid_amount_rejected (ty : TxKind) (input : AmountInput)
    (txid now : Nat) (s : LedgerState)
    (h : input = .empty ∨ input = .nonNumeric ∨
      ∃ q, input = .num q ∧ q ≤ 0) :
    handleTransaction ty input txid now s = .error .InvalidAmount ∧
    step s ⟨ty, input, txid, now⟩ = s := by
  have heq : handleTransaction ty input txid now s =
      .error .InvalidAmount := by
    rcases h with h | h | ⟨q, hq, hle⟩
    · subst h; rfl
    · subst h; rfl
    · subst hq; simp [handleTransaction, hle]
  exact ⟨heq, by simp [step, heq]⟩

/-- C3 witness: a deposit of -1. -/
theorem invalid_amount_rejected_witness :
    handleTransaction .deposit (.num (-1)) 1 1 smallState =
      .error .InvalidAmount ∧
    step smallState ⟨.deposit, .num (-1), 1, 1⟩ = smallState :=
  invalid_amount_rejected .deposit (.num (-1)) 1 1 smallState
    (Or.inr (Or.inr ⟨-1, rfl, by norm_num⟩))

/-- C4: an accepted submission applies the signed delta and appends the
completed row in one step of the (spec-modelled, synchronous) ledger: the
post-operation btc balance is the prior balance plus the amount for a
deposit and minus the amount for a withdrawal, the usd balance is
untouched, and the log grows by exactly the one completed record. -/
theorem submit_atomic_delta (ty : TxKind) (a : ℚ) (txid now : Nat)
    (s : LedgerState) (ha : 0 < a)
    (hf : ty = TxKind.withdrawal → a ≤ s.profile.btc_balance) :
    ∃ s2, handleTransaction ty (.num a) txid now s = .ok s2 ∧
      s2.profile.btc_balance =
        (match ty with
         | .deposit => s.profile.btc_balance + a
         | .withdrawal => s.profile.btc_balance - a) ∧
      s2.profile.usd_balance = s.profile.usd_balance ∧
      s2.log = s.log ++
        [{ id := txid, user_id := s.profile.id, type := ty.toType,
           amount := a, currency := .BTC, status := .completed,
           created_at := now }] := by
  refine ⟨_, handleTransaction_num_pos_ok ty a txid now s ha hf, ?_, ?_, rfl⟩
  · cases ty with
    | deposit => simp [applyDelta, TxKind.signedDelta]
    | withdrawal => simp [applyDelta, TxKind.signedDelta, sub_eq_add_neg]
  · cases ty <;> simp [applyDelta]

/-- C4 witness: the example of spec section 8: depositing 0.5 BTC into
the zero-balance account yields btc balance 0.5 and exactly one
completed transaction record. -/
theorem submit_atomic_delta_witness :
    (∃ s2, handleTransaction .deposit (.num (1/2)) 1 1 zeroState = .ok s2 ∧
      s2.profile.btc_balance = zeroState.profile.btc_balance + 1/2 ∧
      s2.profile.usd_balance = zeroState.profile.usd_balance ∧
      s2.log = zeroState.log ++
        [{ id := 1, user_id := zeroState.profile.id,
           type := TxKind.deposit.toType, amount := 1/2, currency := .BTC,
           status := .completed, created_at := 1 }]) ∧
    zeroState.profile.btc_balance + 1/2 = 1/2 ∧ zeroState.log = [] :=
  ⟨submit_atomic_delta .deposit (1/2) 1 1 zeroState (by norm_num)
      (fun h => absurd h (by simp)),
    by norm_num [zeroState], rfl⟩

/-- A concrete run in which two accepted deposits share a created_at
timestamp, as two inserts served in the same database clock tick do. -/
def tieState : LedgerState :=
  run zeroState [⟨.deposit, .num 1, 1, 5⟩, ⟨.deposit, .num 1, 2, 5⟩]

/-- C6 counterexample: on the reachable state with two equal created_at
values, the recent-transactions listing is not strictly ordered by
created_at descending, so the claim as stated fails; the limit bound
itself is not at issue. -/
theorem listRecent_not_strictly_descending :
    ¬ ((fetchTransactions tieState).length ≤ 10 ∧
      (fetchTransactions tieState).Pairwise
        (fun a b => b.created_at < a.created_at)) := by
  intro hcl
  exact absurd hcl.2 (by decide)

/-- C6 amended: listing recent transactions with limit 10 returns at most
10 records ordered by created_at non-increasing (newest first); the order
is strict only between records with distinct created_at values. -/
theorem listRecent_limit_and_descending (s : LedgerState) :
    (fetchTransactions s).length ≤ 10 ∧
    (fetchTransactions s).Pairwise
      (fun a b => b.created_at ≤ a.created_at) := by
  constructor
  · have : (fetchTransactions s).length =
        min 10 (s.log.insertionSort byRecency).length := by
      simp [fetchTransactions, listRecent]
    rw [this]
    exact min_le_left _ _
  · have hs : (s.log.insertionSort byRecency).Pairwise byRecency :=
      List.sorted_insertionSort byRecency s.log
    exact hs.sublist (List.take_sublist 10 _)

/-- A candidate transactions row with amount 0 in the name of user 7. -/
def zeroAmountRow : TransactionRow :=
  { user_id := 7, type := "deposit", amount := 0, currency := "BTC",
    status := "completed" }

/-- C7 counterexample: the transactions schema has no constraint on the
sign of amount, so the insert policy and every column CHECK admit a row
whose amount is not strictly positive; existence in the system is not
restricted to the dashboard path, as any authenticated client may insert
its own rows directly. -/
theorem schema_admits_nonpositive_amount :
    insertPolicyAllows 7 zeroAmountRow = true ∧
    transactionsRowCheck zeroAmountRow = true ∧
    ¬ (0 < zeroAmountRow.amount) := by
  refine ⟨rfl, rfl, ?_⟩
  norm_num [zeroAmountRow]

/-- C7 amended: every transaction created through the dashboard submit
path has a strictly positive amount; the schema alone does not enforce
positivity for rows inserted by other clients. -/
theorem dashboard_amounts_positive (s : LedgerState) (cs : List Command)
    (hlog : ∀ tx ∈ s.log, 0 < tx.amount) :
    ∀ tx ∈ (run s cs).log, 0 < tx.amount := by
  induction cs generalizing s with
  | nil => exact hlog
  | cons c cs ih =>
    have hstep : ∀ tx ∈ (step s c).log, 0 < tx.amount := by
      unfold step
      cases hh : handleTransaction c.kind c.input c.txid c.now s with
      | error e => exact hlog
      | ok s2 =>
        obtain ⟨a, _, ha, _, hs2⟩ :=
          handleTransaction_ok_inv _ _ _ _ _ _ hh
        subst hs2
        intro tx htx
        rcases List.mem_append.mp htx with hmem | hmem
        · exact hlog tx hmem
        · rw [List.mem_singleton] at hmem
          subst hmem
          exact ha
    exact ih (step s c) hstep

/-- C7 amended witness: the record created by one accepted deposit on
the empty log has positive amount. -/
theorem dashboard_amounts_positive_witness :
    0 < ({ id := 1, user_id := 7, type := TxKind.deposit.toType,
           amount := 1, currency := .BTC, status := .completed,
           created_at := 1 } : Transaction).amount :=
  dashboard_amounts_positive zeroState [⟨.deposit, .num 1, 1, 1⟩]
    (by simp [zeroState]) _ (by decide)

/-- C8: the record appended by an accepted submission is retrievable
through the recent-transactions query (with a limit covering the log) and
carries the identical amount, BTC currency and kind of the submission and
the completed status. -/
theorem submitted_tx_retrievable (ty : TxKind) (a : ℚ) (txid now : Nat)
    (s s2 : LedgerState)
    (h : handleTransaction ty (.num a) txid now s = .ok s2) :
    ∃ tx, s2.log = s.log ++ [tx] ∧
      tx ∈ listRecent s2.log s2.log.length ∧
      tx.amount = a ∧ tx.currency = Currency.BTC ∧
      tx.type = ty.toType ∧ tx.status = TxStatus.completed := by
  obtain ⟨b, hb, hpos, hw, hs2⟩ := handleTransaction_ok_inv _ _ _ _ _ _ h
  obtain rfl : a = b := by injection hb
  subst hs2
  refine ⟨_, rfl, ?_, rfl, rfl, rfl, rfl⟩
  rw [listRecent,
    List.take_of_length_le (le_of_eq (List.length_insertionSort _ _))]
  simp

/-- The result state of the C8 witness submission: depositing 1 BTC on
the 3 BTC account. -/
def depositResult : LedgerState :=
  { profile := applyDelta smallState.profile .BTC (TxKind.deposit.signedDelta 1),
    log := smallState.log ++
      [{ id := 4, user_id := smallState.profile.id,
         type := TxKind.deposit.toType, amount := 1, currency := .BTC,
         status := .completed, created_at := 6 }] }

/-- C8 witness: the deposited record is listed with identical fields. -/
theorem submitted_tx_retrievable_witness :
    ∃ tx, depositResult.log = smallState.log ++ [tx] ∧
      tx ∈ listRecent depositResult.log depositResult.log.length ∧
      tx.amount = 1 ∧ tx.currency = Currency.BTC ∧
      tx.type = TxKind.deposit.toType ∧ tx.status = TxStatus.completed :=
  submitted_tx_retrievable .deposit 1 4 6 smallState depositResult
    (handleTransaction_num_pos_ok .deposit 1 4 6 smallState (by norm_num)
      (fun h => absurd h (by simp)))

/-- C9: registering one fresh identity appends exactly one profile row,
and the rows owned by that identity in the resulting table are exactly
the one new row with both balances zero. -/
theorem provisioning_creates_single_zero_account (db : List Profile)
    (u : AuthUser) (hfresh : ∀ p ∈ db, p.id ≠ u.id) :
    (registerUser db u).length = db.length + 1 ∧
    (registerUser db u).filter (fun p => p.id == u.id) =
      [{ id := u.id, username := u.email,
         btc_balance := 0, usd_balance := 0 }] := by
  refine ⟨by simp [registerUser], ?_⟩
  rw [registerUser, List.filter_append]
  have h1 : db.filter (fun p => p.id == u.id) = [] := by
    simp only [List.filter_eq_nil_iff]
    intro p hp
    simpa using hfresh p hp
  rw [h1]
  simp [handle_new_user]

/-- C9 witness: provisioning identity 2 into the empty table. -/
theorem provisioning_creates_single_zero_account_witness :
    (registerUser [] ⟨2, "a@b"⟩).length =
      List.length ([] : List Profile) + 1 ∧
    (registerUser [] ⟨2, "a@b"⟩).filter (fun p => p.id == 2) =
      [{ id := 2, username := "a@b",
         btc_balance := 0, usd_balance := 0 }] :=
  provisioning_creates_single_zero_account [] ⟨2, "a@b"⟩ (by simp)

/-- C10: the dashboard submit path is BTC-only: every row an accepted
submission appends has currency BTC (and the interface offers no currency
choice at all, so no USD command can be issued through it), and an
InsufficientFunds rejection occurs exactly when a withdrawal of a
positive amount exceeds btc_balance, so the check never consults
usd_balance. -/
theorem dashboard_btc_only (ty : TxKind) (txid now : Nat)
    (s : LedgerState) :
    (∀ (input : AmountInput) (s2 : LedgerState),
       handleTransaction ty input txid now s = .ok s2 →
       ∃ tx, s2.log = s.log ++ [tx] ∧ tx.currency = Currency.BTC) ∧
    (∀ a : ℚ,
       handleTransaction ty (.num a) txid now s =
         .error .InsufficientFunds ↔
       ty = TxKind.withdrawal ∧ 0 < a ∧ s.profile.btc_balance < a) := by
  constructor
  · intro input s2 h
    obtain ⟨a, _, _, _, hs2⟩ := handleTransaction_ok_inv _ _ _ _ _ _ h
    subst hs2
    exact ⟨_, rfl, rfl⟩
  · intro a
    constructor
    · intro h
      by_cases h1 : a ≤ 0
      · simp [handleTransaction, h1] at h
      · by_cases h2 : ty = TxKind.withdrawal ∧ s.profile.btc_balance < a
        · exact ⟨h2.1, lt_of_not_le h1, h2.2⟩
        · simp [handleTransaction, h1, h2] at h
    · rintro ⟨hw, ha, hlt⟩
      subst hw
      simp [handleTransaction, not_le.mpr ha, hlt]

/-- C10 witness: withdrawing 5 from the 3 BTC account is rejected as
insufficient regardless of the usd balance. -/
theorem dashboard_btc_only_witness :
    handleTransaction .withdrawal (.num 5) 2 9 smallState =
      .error .InsufficientFunds :=
  ((dashboard_btc_only .withdrawal 2 9 smallState).2 5).mpr
    ⟨rfl, by norm_num, by norm_num [smallState]⟩

end CryptoMax
